import Mathlib

/-!
Shallow embedding of the crypto price-alert bot (three near-duplicate
drafts: `src/index.js`, `src/unnamed/part_000`, `src/unnamed/part_001`).
Numeric prices are modelled as rationals (`ℚ`); a JavaScript value that
may be `undefined` is modelled as an `Option`.  The observable side
effects of the background tick (Telegram messages sent, user records
written) are modelled as an explicit list of `Effect`s, and the
possibility that `sendMessage` or `save` throws is modelled by boolean
oracles `notifyOk` / `saveOk`; a thrown exception propagates to the
single try/catch wrapping the whole tick body, which is modelled by the
early-return (abort) cases below.
-/

namespace CryptoBot

/-- One element of the `alerts` array of the Mongoose `UserSchema`:
`{ coinId: String, targetPrice: Number, direction: String }`. -/
structure Alert where
  coinId : String
  targetPrice : ℚ
  direction : String
deriving Repr, DecidableEq

/-- A user document: `telegramId`, `favorites`, `alerts`
(`firstName` is irrelevant to every claim and omitted). -/
structure User where
  telegramId : String
  favorites : List String
  alerts : List Alert
deriving Repr, DecidableEq

/-- The `coinMap`: lowercase ticker symbol ↦ canonical coin id.
Modelled as an association list (the JavaScript `Map` has unique keys;
lookup returns the first binding). -/
abbrev CoinMap := List (String × String)

/-- A `PriceSnapshot`: the JSON object `{coinId: {usd: price}}` returned by
one batched price fetch.  `some p` means the key is present with `usd = p`;
a missing key is `none`. -/
abbrev Snapshot := List (String × ℚ)

/-- First-match association-list lookup, the model of both
`coinMap.get(k)` (guarded by `coinMap.has(k)`) and `data[k]`. -/
def assocLookup {α : Type} (m : List (String × α)) (k : String) : Option α :=
  match m with
  | [] => none
  | (k', v) :: rest => if k' = k then some v else assocLookup rest k

/-- `data[alert.coinId]?.usd`: the `usd` field of the snapshot entry for a
coin, or `none` when the entry is absent. -/
def lookupUsd (snap : Snapshot) (c : String) : Option ℚ :=
  assocLookup snap c

/-- `String.prototype.toLowerCase()`: lowercase every character
(character-wise `Char.toLower`, i.e. the ASCII case mapping). -/
def lowerString (s : String) : String :=
  ⟨s.data.map Char.toLower⟩

/-- Symbol resolution, as written identically in every command handler:
`const inputLower = rawInput.toLowerCase();`
`const coinId = coinMap.has(inputLower) ? coinMap.get(inputLower) : inputLower;` -/
def resolve (cm : CoinMap) (input : String) : String :=
  let inputLower := lowerString input
  match assocLookup cm inputLower with
  | some id => id
  | none => inputLower

/-- The fired condition of the alert checker
(`src/unnamed/part_001` lines 306–310):
`if (alert.direction === "above" && price >= alert.targetPrice) fired = true;`
`if (alert.direction === "below" && price <= alert.targetPrice) fired = true;` -/
def firedFlag (a : Alert) (price : ℚ) : Bool :=
  ((a.direction == "above") && decide (a.targetPrice ≤ price)) ||
  ((a.direction == "below") && decide (price ≤ a.targetPrice))

/-- Classification of one alert against the snapshot
(`src/unnamed/part_001` lines 300–310):
`const price = data[alert.coinId]?.usd; if (!price) { remaining; continue }`
followed by the fired condition.  The JavaScript truthiness test `!price`
is true both when the entry is absent (`undefined`) and when the fetched
price is exactly `0`, so both cases classify as not fired (remaining). -/
def classify (snap : Snapshot) (a : Alert) : Bool :=
  match lookupUsd snap a.coinId with
  | none => false
  | some price => if price = 0 then false else firedFlag a price

/-- An observable side effect of one tick: a Telegram message sent for a
fired alert (`bot.telegram.sendMessage`), or a user record written
(`user.save()` with the new `alerts` list). -/
inductive Effect where
  | notify (telegramId : String) (a : Alert)
  | save (telegramId : String) (alerts : List Alert)
deriving Repr, DecidableEq

/-- The user id an effect belongs to. -/
def Effect.uid : Effect → String
  | .notify t _ => t
  | .save t _ => t

/-- Result of the inner `for (const alert of user.alerts)` loop:
the notifications actually sent, the `remainingAlerts` array, the
`alertTriggered` flag, and `ok = false` when a `sendMessage` call threw
(which aborts the loop, so `remaining`/`triggered` are then dead values). -/
structure LoopResult where
  sent : List Effect
  remaining : List Alert
  triggered : Bool
  ok : Bool
deriving Repr, DecidableEq

/-- The inner alert loop of the tick (`src/unnamed/part_001` lines
299–322).  `notifyOk uid coinId` tells whether the `sendMessage` call for
this user and coin succeeds; a failed send throws, which ends the loop
with no further effects (`ok := false`). -/
def loopAlerts (notifyOk : String → String → Bool) (uid : String)
    (snap : Snapshot) : List Alert → LoopResult
  | [] => ⟨[], [], false, true⟩
  | a :: rest =>
    if classify snap a then
      if notifyOk uid a.coinId then
        let r := loopAlerts notifyOk uid snap rest
        ⟨.notify uid a :: r.sent, r.remaining, true, r.ok⟩
      else
        ⟨[], [], false, false⟩
    else
      let r := loopAlerts notifyOk uid snap rest
      ⟨r.sent, a :: r.remaining, r.triggered, r.ok⟩

/-- The outer `for (const user of users)` loop of the tick
(`src/unnamed/part_001` lines 295–328).  Because the whole tick body sits
in a single `try { … } catch`, an exception thrown while notifying
(`r.ok = false`) or while saving (`saveOk …  = false`) aborts the loop:
no later user is processed.  `user.save()` runs only when
`alertTriggered` is true. -/
def processUsers (snap : Snapshot) (notifyOk : String → String → Bool)
    (saveOk : String → Bool) : List User → List Effect
  | [] => []
  | u :: rest =>
    let r := loopAlerts notifyOk u.telegramId snap u.alerts
    if r.ok then
      if r.triggered then
        if saveOk u.telegramId then
          r.sent ++ Effect.save u.telegramId r.remaining ::
            processUsers snap notifyOk saveOk rest
        else
          r.sent
      else
        r.sent ++ processUsers snap notifyOk saveOk rest
    else
      r.sent

/-- One full evaluator tick (`setInterval` body, `src/unnamed/part_001`
lines 281–332): `users` is what `User.find({"alerts.0": {$exists: true}})`
returned; `fetched` is the batched price fetch, `none` when it threw
(exception, rate limit, timeout), in which case the tick-level catch runs
and nothing happens. -/
def runTick (users : List User) (fetched : Option Snapshot)
    (notifyOk : String → String → Bool) (saveOk : String → Bool) :
    List Effect :=
  if users.isEmpty then []
  else
    match fetched with
    | none => []
    | some snap => processUsers snap notifyOk saveOk users

/-- Outcome of the `/alert` command handler for the user's stored record:
either a reply with no store write, or the saved user. -/
inductive AlertOutcome where
  | usage
  | notFound
  | set (saved : User)
deriving Repr, DecidableEq

/-- The `/alert <symbol> <price>` handler (`src/unnamed/part_001` lines
235–278).  `rawCoin` is `parts[1]` (`none` = `undefined`); `target` is
`parseFloat(parts[2])`, modelled as `none` when the parse gives `NaN`.
The guard `if (!rawCoin || !targetPrice)` rejects a missing or empty
symbol and a `NaN` or `0` target.  `fetchUsd` is the single-coin price
fetch `data[coinId]` (`none` = key absent → "Coin not found").
Direction: `const direction = targetPrice > currentPrice ? "above" : "below";`. -/
def alertCommand (cm : CoinMap) (rawCoin : Option String) (target : Option ℚ)
    (fetchUsd : String → Option ℚ) (user : User) : AlertOutcome :=
  match rawCoin with
  | none => .usage
  | some rc =>
    if rc = "" then .usage
    else
      match target with
      | none => .usage
      | some t =>
        if t = 0 then .usage
        else
          let coinId := resolve cm rc
          match fetchUsd coinId with
          | none => .notFound
          | some currentPrice =>
            let direction := if currentPrice < t then "above" else "below"
            .set { user with alerts := user.alerts ++ [⟨coinId, t, direction⟩] }

/-- Outcome of the `/add` command handler. -/
inductive AddOutcome where
  | usage
  | alreadyWatching (coinId : String)
  | added (saved : User)
deriving Repr, DecidableEq

/-- The `/add <symbol>` handler (`src/index.js` lines 87–117,
`src/unnamed/part_001` lines 109–137): resolve the symbol; if
`user.favorites.includes(coinId)` reply "already watching" without
modifying the list, else push and save. -/
def addCommand (cm : CoinMap) (rawInput : Option String) (user : User) :
    AddOutcome :=
  match rawInput with
  | none => .usage
  | some s =>
    if s = "" then .usage
    else
      let coinId := resolve cm s
      if coinId ∈ user.favorites then .alreadyWatching coinId
      else .added { user with favorites := user.favorites ++ [coinId] }

/-! ## Helper lemmas about the inner alert loop -/

/-- An alert whose coin has no snapshot entry is never classified fired. -/
theorem classify_eq_false_of_lookup_none {snap : Snapshot} {a : Alert}
    (h : lookupUsd snap a.coinId = none) : classify snap a = false := by
  simp [classify, h]

/-- An alert whose coin's fetched price is exactly `0` is never classified
fired (the `!price` truthiness test). -/
theorem classify_eq_false_of_lookup_zero {snap : Snapshot} {a : Alert}
    (h : lookupUsd snap a.coinId = some 0) : classify snap a = false := by
  simp [classify, h]

/-- If no alert of the list classifies fired, the inner loop sends nothing,
keeps every alert in order, leaves `alertTriggered` false and completes. -/
theorem loopAlerts_of_all_false (nOk : String → String → Bool) (uid : String)
    (snap : Snapshot) :
    ∀ alerts : List Alert, (∀ a ∈ alerts, classify snap a = false) →
      loopAlerts nOk uid snap alerts = ⟨[], alerts, false, true⟩ := by
  intro alerts
  induction alerts with
  | nil => intro _; rfl
  | cons a rest ih =>
    intro h
    have ha := h a (List.mem_cons_self a rest)
    have hrest := ih (fun b hb => h b (List.mem_cons_of_mem a hb))
    simp [loopAlerts, ha, hrest]

/-- A non-fired alert of a list survives into `remainingAlerts` whenever the
inner loop completes without a notification exception. -/
theorem mem_remaining_of_classify_false (nOk : String → String → Bool)
    (uid : String) (snap : Snapshot) {a : Alert}
    (ha : classify snap a = false) :
    ∀ alerts : List Alert, a ∈ alerts →
      (loopAlerts nOk uid snap alerts).ok = true →
      a ∈ (loopAlerts nOk uid snap alerts).remaining := by
  intro alerts
  induction alerts with
  | nil => intro h; exact absurd h (List.not_mem_nil a)
  | cons b rest ih =>
    intro hmem hok
    by_cases hb : classify snap b = true
    · by_cases hn : nOk uid b.coinId = true
      · rcases List.mem_cons.mp hmem with h1 | h2
        · subst h1; rw [hb] at ha; exact absurd ha (by simp)
        · simp only [loopAlerts, hb, hn, if_true] at hok ⊢
          exact ih h2 hok
      · simp only [loopAlerts, hb, if_true] at hok
        rw [if_neg hn] at hok
        simp at hok
    · have hb' : classify snap b = false := by
        cases h : classify snap b
        · rfl
        · exact absurd h hb
      rcases List.mem_cons.mp hmem with h1 | h2
      · subst h1; simp [loopAlerts, hb']
      · simp only [loopAlerts, hb', Bool.false_eq_true, if_false] at hok ⊢
        exact List.mem_cons_of_mem b (ih h2 hok)

/-- A non-fired alert is never the subject of a notification sent by the
inner loop. -/
theorem notify_not_mem_sent (nOk : String → String → Bool) (uid : String)
    (snap : Snapshot) {a : Alert} (ha : classify snap a = false) :
    ∀ alerts : List Alert,
      Effect.notify uid a ∉ (loopAlerts nOk uid snap alerts).sent := by
  intro alerts
  induction alerts with
  | nil => simp [loopAlerts]
  | cons b rest ih =>
    by_cases hb : classify snap b = true
    · by_cases hn : nOk uid b.coinId = true
      · simp only [loopAlerts, hb, hn, if_true, List.mem_cons]
        intro hcontra
        rcases hcontra with h1 | h2
        · have : a = b := by injection h1
          rw [this, hb] at ha
          exact absurd ha (by simp)
        · exact ih h2
      · simp only [loopAlerts, hb, if_true]
        rw [if_neg hn]
        simp
    · have hb' : classify snap b = false := by
        cases h : classify snap b
        · rfl
        · exact absurd h hb
      simp only [loopAlerts, hb', Bool.false_eq_true, if_false]
      exact ih

/-- Every effect the inner loop produces is a notification addressed to
the user the loop is running for. -/
theorem sent_all_notify_uid (nOk : String → String → Bool) (uid : String)
    (snap : Snapshot) :
    ∀ alerts : List Alert, ∀ e ∈ (loopAlerts nOk uid snap alerts).sent,
      ∃ b : Alert, e = Effect.notify uid b := by
  intro alerts
  induction alerts with
  | nil => simp [loopAlerts]
  | cons b rest ih =>
    intro e he
    by_cases hb : classify snap b = true
    · by_cases hn : nOk uid b.coinId = true
      · simp only [loopAlerts, hb, hn, if_true, List.mem_cons] at he
        rcases he with h1 | h2
        · exact ⟨b, h1⟩
        · exact ih e h2
      · simp only [loopAlerts, hb, if_true] at he
        rw [if_neg hn] at he
        simp at he
    · have hb' : classify snap b = false := by
        cases h : classify snap b
        · rfl
        · exact absurd h hb
      simp only [loopAlerts, hb', Bool.false_eq_true, if_false] at he
      exact ih e he

/-! ## Claim theorems -/

/-- Claim C3: if the batched price fetch fails (exception, rate limit,
timeout — `fetched = none`), the whole tick is aborted by the tick-level
catch: for every list of users with alerts, zero notifications are sent
and zero user records are written in that tick. -/
theorem price_fetch_failure_yields_no_effects (users : List User)
    (nOk : String → String → Bool) (sOk : String → Bool) :
    runTick users none nOk sOk = [] := by
  cases users <;> rfl

/-- Claim C4: an alert whose `coinId` has no entry in the price snapshot is
classified as not fired, is never the subject of a notification, and stays
in `remainingAlerts` whenever the user's loop completes — for any direction
and any target price. -/
theorem missing_price_classifies_remaining (snap : Snapshot) (a : Alert)
    (h : lookupUsd snap a.coinId = none) :
    classify snap a = false ∧
    ∀ (nOk : String → String → Bool) (uid : String) (alerts : List Alert),
      a ∈ alerts →
      Effect.notify uid a ∉ (loopAlerts nOk uid snap alerts).sent ∧
      ((loopAlerts nOk uid snap alerts).ok = true →
        a ∈ (loopAlerts nOk uid snap alerts).remaining) := by
  have hc := classify_eq_false_of_lookup_none h
  exact ⟨hc, fun nOk uid alerts hmem =>
    ⟨notify_not_mem_sent nOk uid snap hc alerts,
     fun hok => mem_remaining_of_classify_false nOk uid snap hc alerts hmem hok⟩⟩

/-- Witness for C4 at a concrete snapshot missing the alert's coin. -/
theorem missing_price_classifies_remaining_witness :
    classify [("bitcoin", (40 : ℚ))] (Alert.mk "ethereum" 10 "below") = false ∧
    Alert.mk "ethereum" 10 "below" ∈
      (loopAlerts (fun _ _ => true) "7" [("bitcoin", (40 : ℚ))]
        [Alert.mk "ethereum" 10 "below"]).remaining := by
  have h := missing_price_classifies_remaining [("bitcoin", (40 : ℚ))]
    (Alert.mk "ethereum" 10 "below") (by decide)
  exact ⟨h.1,
    (h.2 (fun _ _ => true) "7" [Alert.mk "ethereum" 10 "below"] (by decide)).2
      (by decide)⟩

/-- Claim C10: a snapshot entry whose USD price is exactly 0 is treated as
absent by the `!price` truthiness check: every alert on such a coin is
classified not fired, never notified, and kept in `remainingAlerts`
whenever the user's loop completes, regardless of direction or target. -/
theorem zero_price_treated_as_absent (snap : Snapshot) (a : Alert)
    (h : lookupUsd snap a.coinId = some 0) :
    classify snap a = false ∧
    ∀ (nOk : String → String → Bool) (uid : String) (alerts : List Alert),
      a ∈ alerts →
      Effect.notify uid a ∉ (loopAlerts nOk uid snap alerts).sent ∧
      ((loopAlerts nOk uid snap alerts).ok = true →
        a ∈ (loopAlerts nOk uid snap alerts).remaining) := by
  have hc := classify_eq_false_of_lookup_zero h
  exact ⟨hc, fun nOk uid alerts hmem =>
    ⟨notify_not_mem_sent nOk uid snap hc alerts,
     fun hok => mem_remaining_of_classify_false nOk uid snap hc alerts hmem hok⟩⟩

/-- Witness for C10: price 0 with a `below` alert (whose fire condition
`0 ≤ 5` would otherwise hold) stays in `remaining`. -/
theorem zero_price_treated_as_absent_witness :
    classify [("dogecoin", (0 : ℚ))] (Alert.mk "dogecoin" 5 "below") = false ∧
    Alert.mk "dogecoin" 5 "below" ∈
      (loopAlerts (fun _ _ => true) "7" [("dogecoin", (0 : ℚ))]
        [Alert.mk "dogecoin" 5 "below"]).remaining := by
  have h := zero_price_treated_as_absent [("dogecoin", (0 : ℚ))]
    (Alert.mk "dogecoin" 5 "below") (by decide)
  exact ⟨h.1,
    (h.2 (fun _ _ => true) "7" [Alert.mk "dogecoin" 5 "below"] (by decide)).2
      (by decide)⟩

/-- Counterexample to C2 as stated: the coin `dogecoin` *has* a price entry
(`some 0`) in the snapshot, the spec's fire condition for a `below` alert
with target 5 holds (`0 ≤ 5`), yet the evaluator classifies the alert as
not fired, because the `!price` truthiness check treats the 0 entry as
absent data. -/
theorem zero_price_entry_breaks_fired_iff_cex :
    lookupUsd [("dogecoin", (0 : ℚ))] (Alert.mk "dogecoin" 5 "below").coinId =
      some 0 ∧
    ¬ (classify [("dogecoin", (0 : ℚ))] (Alert.mk "dogecoin" 5 "below") = true ↔
        ((Alert.mk "dogecoin" 5 "below").direction = "above" ∧
          (Alert.mk "dogecoin" 5 "below").targetPrice ≤ 0) ∨
        ((Alert.mk "dogecoin" 5 "below").direction = "below" ∧
          (0 : ℚ) ≤ (Alert.mk "dogecoin" 5 "below").targetPrice)) := by
  decide

/-- Claim C2 (amended): for every alert whose coin has a price entry with a
nonzero price `p`, the evaluator classifies it as fired iff
(`direction = above` and `p ≥ targetPrice`) or (`direction = below` and
`p ≤ targetPrice`); both comparisons include equality, so for `p ≠ 0` an
alert fires at `p = targetPrice` in either direction. -/
theorem fired_iff_threshold_for_nonzero_price (snap : Snapshot) (a : Alert)
    (p : ℚ) (hp : lookupUsd snap a.coinId = some p) (h0 : p ≠ 0) :
    (classify snap a = true ↔
      (a.direction = "above" ∧ a.targetPrice ≤ p) ∨
      (a.direction = "below" ∧ p ≤ a.targetPrice)) ∧
    (a.direction = "above" → p = a.targetPrice → classify snap a = true) ∧
    (a.direction = "below" → p = a.targetPrice → classify snap a = true) := by
  have hiff : classify snap a = true ↔
      (a.direction = "above" ∧ a.targetPrice ≤ p) ∨
      (a.direction = "below" ∧ p ≤ a.targetPrice) := by
    simp [classify, hp, h0, firedFlag]
  refine ⟨hiff, ?_, ?_⟩
  · intro hd he
    exact hiff.mpr (Or.inl ⟨hd, le_of_eq he.symm⟩)
  · intro hd he
    exact hiff.mpr (Or.inr ⟨hd, le_of_eq he⟩)

/-- Witness for the amended C2: a `below` alert fires exactly at its target
price, an `above` alert fires exactly at its target price. -/
theorem fired_iff_threshold_for_nonzero_price_witness :
    classify [("bitcoin", (50 : ℚ))] (Alert.mk "bitcoin" 50 "below") = true ∧
    classify [("bitcoin", (50 : ℚ))] (Alert.mk "bitcoin" 50 "above") = true := by
  have h1 := fired_iff_threshold_for_nonzero_price [("bitcoin", (50 : ℚ))]
    (Alert.mk "bitcoin" 50 "below") 50 (by decide) (by decide)
  have h2 := fired_iff_threshold_for_nonzero_price [("bitcoin", (50 : ℚ))]
    (Alert.mk "bitcoin" 50 "above") 50 (by decide) (by decide)
  exact ⟨h1.2.2 (by decide) (by decide), h2.2.1 (by decide) (by decide)⟩

/-- Claim C6: a user whose alerts all classify as not fired contributes no
notification and no `save` to the tick and the loop moves on to the rest
of the users unchanged; consequently a snapshot with no entry for any
requested coin yields a no-op tick: no effects at all. -/
theorem no_fired_alerts_no_write :
    (∀ (u : User) (rest : List User) (snap : Snapshot)
        (nOk : String → String → Bool) (sOk : String → Bool),
      (∀ a ∈ u.alerts, classify snap a = false) →
      processUsers snap nOk sOk (u :: rest) = processUsers snap nOk sOk rest) ∧
    (∀ (users : List User) (snap : Snapshot)
        (nOk : String → String → Bool) (sOk : String → Bool),
      (∀ u ∈ users, ∀ a ∈ u.alerts, lookupUsd snap a.coinId = none) →
      runTick users (some snap) nOk sOk = []) := by
  have key : ∀ (u : User) (rest : List User) (snap : Snapshot)
      (nOk : String → String → Bool) (sOk : String → Bool),
      (∀ a ∈ u.alerts, classify snap a = false) →
      processUsers snap nOk sOk (u :: rest) = processUsers snap nOk sOk rest := by
    intro u rest snap nOk sOk h
    have hl := loopAlerts_of_all_false nOk u.telegramId snap u.alerts h
    simp [processUsers, hl]
  refine ⟨key, ?_⟩
  intro users snap nOk sOk h
  have main : ∀ us : List User,
      (∀ u ∈ us, ∀ a ∈ u.alerts, lookupUsd snap a.coinId = none) →
      processUsers snap nOk sOk us = [] := by
    intro us
    induction us with
    | nil => intro _; rfl
    | cons u rest ih =>
      intro hus
      have hu : ∀ a ∈ u.alerts, classify snap a = false := fun a ha =>
        classify_eq_false_of_lookup_none (hus u (List.mem_cons_self u rest) a ha)
      rw [key u rest snap nOk sOk hu]
      exact ih (fun v hv => hus v (List.mem_cons_of_mem u hv))
  cases users with
  | nil => rfl
  | cons u rest =>
    simpa [runTick] using main (u :: rest) h

/-- Witness for C6: a user whose only alert did not fire is skipped without
effects, and a snapshot missing every requested coin yields an empty tick. -/
theorem no_fired_alerts_no_write_witness :
    processUsers [("bitcoin", (100 : ℚ))] (fun _ _ => true) (fun _ => true)
      [User.mk "1" [] [Alert.mk "bitcoin" 200 "above"]] = [] ∧
    runTick [User.mk "1" [] [Alert.mk "ethereum" 10 "below"]]
      (some [("bitcoin", (100 : ℚ))]) (fun _ _ => true) (fun _ => true) = [] := by
  constructor
  · have h := no_fired_alerts_no_write.1
      (User.mk "1" [] [Alert.mk "bitcoin" 200 "above"]) []
      [("bitcoin", (100 : ℚ))] (fun _ _ => true) (fun _ => true) (by decide)
    simpa [processUsers] using h
  · exact no_fired_alerts_no_write.2
      [User.mk "1" [] [Alert.mk "ethereum" 10 "below"]]
      [("bitcoin", (100 : ℚ))] (fun _ _ => true) (fun _ => true) (by decide)

/-- Counterexample to C1 as stated: two users each hold a `below 50` alert
on bitcoin and the snapshot price is 40, so both alerts fire; when the
`sendMessage` for user "1" throws (the notify oracle fails for "1" only),
the tick produces no effects at all — user "2" is neither notified nor
saved — whereas the same tick with all deliveries succeeding notifies and
saves both users.  A notification-delivery failure therefore does abort
the evaluation of other users. -/
theorem notify_failure_blocks_later_users_cex :
    runTick
      [User.mk "1" [] [Alert.mk "bitcoin" 50 "below"],
       User.mk "2" [] [Alert.mk "bitcoin" 50 "below"]]
      (some [("bitcoin", (40 : ℚ))])
      (fun uid _ => !(uid == "1")) (fun _ => true) = [] ∧
    runTick
      [User.mk "1" [] [Alert.mk "bitcoin" 50 "below"],
       User.mk "2" [] [Alert.mk "bitcoin" 50 "below"]]
      (some [("bitcoin", (40 : ℚ))])
      (fun _ _ => true) (fun _ => true) =
      [Effect.notify "1" (Alert.mk "bitcoin" 50 "below"),
       Effect.save "1" [],
       Effect.notify "2" (Alert.mk "bitcoin" 50 "below"),
       Effect.save "2" []] := by
  decide

/-- Claim C1 (amended): the whole tick body sits in a single try/catch, so
a failure while notifying (`r.ok = false`) or saving (`saveOk` false while
`alertTriggered`) for one user aborts the remainder of the tick: the
tick's effects are exactly the notifications already sent for the failing
user, and every effect of the tick belongs to that user — users after it
are not evaluated, notified, or persisted until the next tick. -/
theorem per_user_failure_aborts_tick (u : User) (rest : List User)
    (snap : Snapshot) (nOk : String → String → Bool) (sOk : String → Bool)
    (h : (loopAlerts nOk u.telegramId snap u.alerts).ok = false ∨
         ((loopAlerts nOk u.telegramId snap u.alerts).triggered = true ∧
          sOk u.telegramId = false)) :
    processUsers snap nOk sOk (u :: rest) =
      (loopAlerts nOk u.telegramId snap u.alerts).sent ∧
    ∀ e ∈ processUsers snap nOk sOk (u :: rest),
      Effect.uid e = u.telegramId := by
  have heq : processUsers snap nOk sOk (u :: rest) =
      (loopAlerts nOk u.telegramId snap u.alerts).sent := by
    rcases h with h1 | ⟨h2, h3⟩
    · simp [processUsers, h1]
    · cases hok : (loopAlerts nOk u.telegramId snap u.alerts).ok with
      | false => simp [processUsers, hok]
      | true => simp [processUsers, hok, h2, h3]
  refine ⟨heq, ?_⟩
  intro e he
  rw [heq] at he
  obtain ⟨b, hb⟩ := sent_all_notify_uid nOk u.telegramId snap u.alerts e he
  rw [hb]
  rfl

/-- Witness for the amended C1 at the counterexample's configuration:
user "1"'s delivery fails, so the tick's effects reduce to user "1"'s
already-sent notifications and every effect belongs to user "1". -/
theorem per_user_failure_aborts_tick_witness :
    processUsers [("bitcoin", (40 : ℚ))] (fun uid _ => !(uid == "1"))
        (fun _ => true)
        [User.mk "1" [] [Alert.mk "bitcoin" 50 "below"],
         User.mk "2" [] [Alert.mk "bitcoin" 50 "below"]] =
      (loopAlerts (fun uid _ => !(uid == "1"))
        (User.mk "1" [] [Alert.mk "bitcoin" 50 "below"]).telegramId
        [("bitcoin", (40 : ℚ))]
        (User.mk "1" [] [Alert.mk "bitcoin" 50 "below"]).alerts).sent ∧
    ∀ e ∈ processUsers [("bitcoin", (40 : ℚ))] (fun uid _ => !(uid == "1"))
        (fun _ => true)
        [User.mk "1" [] [Alert.mk "bitcoin" 50 "below"],
         User.mk "2" [] [Alert.mk "bitcoin" 50 "below"]],
      Effect.uid e = (User.mk "1" [] [Alert.mk "bitcoin" 50 "below"]).telegramId :=
  per_user_failure_aborts_tick
    (User.mk "1" [] [Alert.mk "bitcoin" 50 "below"])
    [User.mk "2" [] [Alert.mk "bitcoin" 50 "below"]]
    [("bitcoin", (40 : ℚ))]
    (fun uid _ => !(uid == "1")) (fun _ => true)
    (Or.inl (by decide))

/-- Claim C5: for every accepted `/alert` invocation (non-empty symbol,
parsed target `t ≠ 0`) on a coin whose fetched current price is `P`, the
saved alert's direction is `above` iff `t > P`, and `below` otherwise; in
particular `t = P` yields `below`. -/
theorem alert_direction_above_iff_target_gt_price
    (cm : CoinMap) (rc : String) (t : ℚ) (fetchUsd : String → Option ℚ)
    (user : User) (P : ℚ)
    (hrc : rc ≠ "") (ht : t ≠ 0)
    (hP : fetchUsd (resolve cm rc) = some P) :
    ∃ d : String,
      alertCommand cm (some rc) (some t) fetchUsd user =
        .set { user with alerts := user.alerts ++ [Alert.mk (resolve cm rc) t d] } ∧
      (d = "above" ↔ P < t) ∧
      (¬ P < t → d = "below") := by
  refine ⟨if P < t then "above" else "below", ?_, ?_, ?_⟩
  · simp [alertCommand, hrc, ht, hP]
  · by_cases h : P < t <;> simp [h]
  · intro h
    simp [h]

/-- Witness for C5: `/alert btc 50000` at current price 60000 stores a
`below` alert; the direction iff is discharged at that instance. -/
theorem alert_direction_above_iff_target_gt_price_witness :
    ∃ d : String,
      alertCommand [("btc", "bitcoin")] (some "btc") (some 50000)
          (fun c => if c = "bitcoin" then some 60000 else none)
          (User.mk "9" [] []) =
        .set { User.mk "9" [] [] with
          alerts := (User.mk "9" [] []).alerts ++
            [Alert.mk (resolve [("btc", "bitcoin")] "btc") 50000 d] } ∧
      (d = "above" ↔ (60000 : ℚ) < 50000) ∧
      (¬ (60000 : ℚ) < 50000 → d = "below") :=
  alert_direction_above_iff_target_gt_price [("btc", "bitcoin")] "btc" 50000
    (fun c => if c = "bitcoin" then some 60000 else none)
    (User.mk "9" [] []) 60000 (by decide) (by decide) (by decide)

/-- Counterexample to C7 as stated: the input `/alert btc -5` passes the
command's validation (`!targetPrice` rejects only `NaN` and `0`;
`parseFloat("-5") = -5` is truthy), and the alert pushed into the user's
list has `targetPrice = -5`, which is not strictly greater than zero. -/
theorem negative_target_accepted_cex :
    alertCommand [("btc", "bitcoin")] (some "btc") (some (-5))
        (fun c => if c = "bitcoin" then some 60000 else none)
        (User.mk "9" [] []) =
      .set (User.mk "9" [] [Alert.mk "bitcoin" (-5) "below"]) ∧
    ¬ (0 : ℚ) < -5 := by
  decide

/-- Claim C7 (amended): every Alert record the `/alert` command saves has a
nonzero `targetPrice`: the validation rejects a missing, `NaN` or `0`
target, but accepts negative targets, so strict positivity does not hold. -/
theorem accepted_target_is_nonzero (cm : CoinMap) (rawCoin : Option String)
    (target : Option ℚ) (fetchUsd : String → Option ℚ) (user u' : User)
    (h : alertCommand cm rawCoin target fetchUsd user = .set u') :
    ∃ a : Alert, u'.alerts = user.alerts ++ [a] ∧ a.targetPrice ≠ 0 := by
  cases rawCoin with
  | none => exact absurd h (by simp [alertCommand])
  | some rc =>
    by_cases hrc : rc = ""
    · exact absurd h (by simp [alertCommand, hrc])
    · cases target with
      | none => exact absurd h (by simp [alertCommand, hrc])
      | some t =>
        by_cases ht : t = 0
        · exact absurd h (by simp [alertCommand, hrc, ht])
        · cases hf : fetchUsd (resolve cm rc) with
          | none => exact absurd h (by simp [alertCommand, hrc, ht, hf])
          | some P =>
            simp only [alertCommand, if_neg hrc, if_neg ht, hf] at h
            injection h with h2
            refine ⟨Alert.mk (resolve cm rc) t
              (if P < t then "above" else "below"), ?_, ht⟩
            rw [← h2]

/-- Witness for the amended C7: the accepted `/alert btc -5` saves an alert
whose target is nonzero. -/
theorem accepted_target_is_nonzero_witness :
    ∃ a : Alert,
      (User.mk "9" [] [Alert.mk "bitcoin" (-5) "below"]).alerts =
        (User.mk "9" [] []).alerts ++ [a] ∧ a.targetPrice ≠ 0 :=
  accepted_target_is_nonzero [("btc", "bitcoin")] (some "btc") (some (-5))
    (fun c => if c = "bitcoin" then some 60000 else none)
    (User.mk "9" [] []) (User.mk "9" [] [Alert.mk "bitcoin" (-5) "below"])
    (by decide)

/-- Claim C8: symbol resolution is total and never fails: if the lowercased
input is a key of the CoinMap it returns the mapped canonical id, else it
returns the lowercased input unchanged. -/
theorem resolve_lookup_semantics (cm : CoinMap) (x : String) :
    (assocLookup cm (lowerString x) = none → resolve cm x = lowerString x) ∧
    (∀ id : String, assocLookup cm (lowerString x) = some id →
      resolve cm x = id) := by
  constructor
  · intro h
    simp [resolve, h]
  · intro id h
    simp [resolve, h]

/-- Witness for C8: a ticker absent from the map passes through lowercased;
a present ticker resolves to its canonical id. -/
theorem resolve_lookup_semantics_witness :
    resolve [("btc", "bitcoin")] "ETH" = lowerString "ETH" ∧
    resolve [("btc", "bitcoin")] "BTC" = "bitcoin" :=
  ⟨(resolve_lookup_semantics [("btc", "bitcoin")] "ETH").1 (by decide),
   (resolve_lookup_semantics [("btc", "bitcoin")] "BTC").2 "bitcoin" (by decide)⟩

/-- Claim C9: the `/add` command preserves set semantics of `favorites`:
starting from a duplicate-free list, a saved result is duplicate-free, and
adding an already-present coin id is answered with the "already watching"
reply without modifying the list. -/
theorem add_preserves_nodup_favorites (cm : CoinMap) (raw : Option String)
    (user : User) (h : user.favorites.Nodup) :
    (∀ u' : User, addCommand cm raw user = .added u' → u'.favorites.Nodup) ∧
    (∀ s : String, raw = some s → s ≠ "" → resolve cm s ∈ user.favorites →
      addCommand cm raw user = .alreadyWatching (resolve cm s)) := by
  constructor
  · intro u' hu
    cases raw with
    | none => exact absurd hu (by simp [addCommand])
    | some s =>
      by_cases hs : s = ""
      · exact absurd hu (by simp [addCommand, hs])
      · by_cases hmem : resolve cm s ∈ user.favorites
        · exact absurd hu (by simp [addCommand, if_neg hs, hmem])
        · simp only [addCommand, if_neg hs, if_neg hmem] at hu
          injection hu with h2
          rw [← h2]
          simp only [List.nodup_append, List.nodup_cons, List.not_mem_nil,
            not_false_iff, List.nodup_nil, and_true, true_and]
          exact ⟨h, by simpa [List.disjoint_singleton] using hmem⟩
  · intro s hraw hs hmem
    subst hraw
    simp [addCommand, if_neg hs, hmem]

/-- Witness for C9: adding a fresh coin keeps the list duplicate-free, and
re-adding a present coin replies "already watching". -/
theorem add_preserves_nodup_favorites_witness :
    (User.mk "9" ["litecoin", "bitcoin"] []).favorites.Nodup ∧
    addCommand [("btc", "bitcoin")] (some "btc")
        (User.mk "9" ["bitcoin"] []) =
      .alreadyWatching (resolve [("btc", "bitcoin")] "btc") :=
  ⟨(add_preserves_nodup_favorites [("btc", "bitcoin")] (some "btc")
      (User.mk "9" ["litecoin"] []) (by decide)).1
      (User.mk "9" ["litecoin", "bitcoin"] []) (by decide),
   (add_preserves_nodup_favorites [("btc", "bitcoin")] (some "btc")
      (User.mk "9" ["bitcoin"] []) (by decide)).2 "btc" rfl (by decide)
      (by decide)⟩

end CryptoBot
